import Mathlib

/-!
Verification of the DiagnoML lab mock service (src/mocks/lab_mock.py).

Floats are modelled as exact rationals.  The Python `random` module is
modelled by an explicit oracle (`RandomSource`): `randomVal` is the result
of `random.random()`, `gaussVal mu sigma` the result of `random.gauss(mu,
sigma)` and `uniformVal a b` the result of `random.uniform(a, b)`.  A
request environment (`Env`) supplies one fresh `RandomSource` and one fresh
clock reading per generated result, plus the `random.randint(100000,
999999)` draw used for the lab id and the `processed_at` clock reading.
-/

/-- Python `round(x, 2)` uses round-half-to-even on the scaled value. -/
def roundHalfEven (x : ℚ) : ℤ :=
  let f := ⌊x⌋
  let frac := x - (f : ℚ)
  if frac < 1/2 then f
  else if 1/2 < frac then f + 1
  else if f % 2 = 0 then f else f + 1

/-- `round(x, 2)`: round to two decimal places. -/
def round2 (x : ℚ) : ℚ := (roundHalfEven (x * 100) : ℚ) / 100

/-- A rational that is an integer number of hundredths. -/
def isRounded2 (q : ℚ) : Prop := ∃ n : ℤ, q = (n : ℚ) / 100

/-- One entry of `LAB_REFERENCE_RANGES`. -/
structure TestProfile where
  unit : String
  min : ℚ
  max : ℚ
  normal_mean : ℚ
  normal_std : ℚ
  abnormal_mean : ℚ
  abnormal_std : ℚ
deriving DecidableEq

/-- The static reference table `LAB_REFERENCE_RANGES`, in insertion order. -/
def LAB_REFERENCE_RANGES : List (String × TestProfile) :=
  [ ("hba1c",
      { unit := "%", min := 4.0, max := 5.6,
        normal_mean := 5.2, normal_std := 0.3,
        abnormal_mean := 7.5, abnormal_std := 1.5 }),
    ("cholesterol_total",
      { unit := "mg/dL", min := 0, max := 200,
        normal_mean := 180, normal_std := 20,
        abnormal_mean := 260, abnormal_std := 40 }),
    ("cholesterol_ldl",
      { unit := "mg/dL", min := 0, max := 100,
        normal_mean := 90, normal_std := 15,
        abnormal_mean := 150, abnormal_std := 30 }),
    ("cholesterol_hdl",
      { unit := "mg/dL", min := 40, max := 60,
        normal_mean := 55, normal_std := 10,
        abnormal_mean := 35, abnormal_std := 8 }),
    ("crp",
      { unit := "mg/L", min := 0, max := 3.0,
        normal_mean := 1.0, normal_std := 0.5,
        abnormal_mean := 8.0, abnormal_std := 3.0 }),
    ("glucose_fasting",
      { unit := "mg/dL", min := 70, max := 100,
        normal_mean := 90, normal_std := 8,
        abnormal_mean := 140, abnormal_std := 30 }),
    ("triglycerides",
      { unit := "mg/dL", min := 0, max := 150,
        normal_mean := 100, normal_std := 25,
        abnormal_mean := 220, abnormal_std := 50 }) ]

/-- The oracle for one call of the generator. -/
structure RandomSource where
  randomVal : ℚ
  gaussVal : ℚ → ℚ → ℚ
  uniformVal : ℚ → ℚ → ℚ

/-- `generate_lab_value(test_type, abnormal_probability=0.3)`. -/
def generate_lab_value (r : RandomSource) (test_type : String)
    (abnormal_probability : ℚ) : ℚ :=
  match LAB_REFERENCE_RANGES.lookup test_type with
  | none => round2 (r.uniformVal 0 100)
  | some config =>
    let value :=
      if r.randomVal < abnormal_probability then
        r.gaussVal config.abnormal_mean config.abnormal_std
      else
        r.gaussVal config.normal_mean config.normal_std
    round2 (max 0 value)

/-- The generator as the spec words it: for a known test type, draw a
uniform random number, compare with the abnormal probability to pick the
abnormal or the normal Gaussian; for an unknown test type fall back to a
uniform value in [0, 100]; clamp to be nonnegative and round to two
decimals. -/
def generate_lab_value_specModel (r : RandomSource) (test_type : String)
    (abnormal_probability : ℚ) : ℚ :=
  match LAB_REFERENCE_RANGES.lookup test_type with
  | some c =>
    round2 (max 0
      (if r.randomVal < abnormal_probability then
        r.gaussVal c.abnormal_mean c.abnormal_std
      else
        r.gaussVal c.normal_mean c.normal_std))
  | none => round2 (r.uniformVal 0 100)

/-- `LabRequest` (pydantic model). -/
structure LabRequest where
  patient_id : String
  test_types : List String
deriving DecidableEq

/-- The default of the `test_types` field of `LabRequest`. -/
def defaultTestTypes : List String := ["hba1c", "cholesterol", "crp"]

/-- `LabResult` (pydantic model); timestamps are abstract integers. -/
structure LabResult where
  test_type : String
  value : ℚ
  unit : String
  reference_min : ℚ
  reference_max : ℚ
  timestamp : ℤ
deriving DecidableEq

/-- `LabResponse` (pydantic model). -/
structure LabResponse where
  patient_id : String
  results : List LabResult
  lab_id : String
  processed_at : ℤ
deriving DecidableEq

/-- `fastapi.HTTPException`. -/
structure HTTPException where
  status_code : ℕ
  detail : String
deriving DecidableEq

/-- The ambient randomness and clock of one request: a fresh `RandomSource`
and a fresh timestamp for the k-th generated result, the
`random.randint(100000, 999999)` draw and the final clock reading. -/
structure Env where
  source : ℕ → RandomSource
  time : ℕ → ℤ
  labIdDraw : ℕ
  procTime : ℤ

/-- Python repr of a string with single quotes. -/
def pyQuote (s : String) : String :=
  String.singleton (Char.ofNat 39) ++ s ++ String.singleton (Char.ofNat 39)

/-- Python repr of a list of strings, as an f-string renders it. -/
def pyListRepr (ss : List String) : String :=
  "[" ++ String.intercalate ", " (ss.map pyQuote) ++ "]"

/-- The keys of the reference table, in order. -/
def availableKeys : List String := LAB_REFERENCE_RANGES.map Prod.fst

/-- The detail string of the 400 error of `request_lab_results`. -/
def noValidDetail : String :=
  "No valid test types provided. Available: " ++ pyListRepr availableKeys

/-- The loop body of `request_lab_results`: skip unknown test types and
build one `LabResult` per known one, consuming fresh randomness and a fresh
timestamp for each generated result. -/
def buildResults (env : Env) (k : ℕ) : List String → List LabResult
  | [] => []
  | t :: rest =>
    match LAB_REFERENCE_RANGES.lookup t with
    | none => buildResults env k rest
    | some config =>
      { test_type := t,
        value := generate_lab_value (env.source k) t 0.3,
        unit := config.unit,
        reference_min := config.min,
        reference_max := config.max,
        timestamp := env.time k } :: buildResults env (k + 1) rest

/-- `POST /api/v1/lab/request` handler `request_lab_results`. -/
def request_lab_results (env : Env) (request : LabRequest) :
    Except HTTPException LabResponse :=
  let results := buildResults env 0 request.test_types
  if results.isEmpty then
    Except.error { status_code := 400, detail := noValidDetail }
  else
    Except.ok
      { patient_id := request.patient_id,
        results := results,
        lab_id := "LAB-" ++ toString env.labIdDraw,
        processed_at := env.procTime }

/-- The loop body of `get_lab_results`: one `LabResult` per table entry. -/
def buildPanel (env : Env) (k : ℕ) : List (String × TestProfile) → List LabResult
  | [] => []
  | (t, config) :: rest =>
    { test_type := t,
      value := generate_lab_value (env.source k) t 0.3,
      unit := config.unit,
      reference_min := config.min,
      reference_max := config.max,
      timestamp := env.time k } :: buildPanel env (k + 1) rest

/-- `GET /api/v1/lab/results/{patient_id}` handler `get_lab_results`. -/
def get_lab_results (env : Env) (patient_id : String) : LabResponse :=
  { patient_id := patient_id,
    results := buildPanel env 0 LAB_REFERENCE_RANGES,
    lab_id := "LAB-" ++ toString env.labIdDraw,
    processed_at := env.procTime }

/-- The per-test payload of `list_available_tests`. -/
structure ReferenceRange where
  min : ℚ
  max : ℚ
deriving DecidableEq

/-- One entry of the `tests` mapping of `list_available_tests`. -/
structure TestListing where
  unit : String
  reference_range : ReferenceRange
deriving DecidableEq

/-- `GET /api/v1/lab/tests` handler `list_available_tests`. -/
def list_available_tests : List (String × TestListing) :=
  LAB_REFERENCE_RANGES.map (fun p =>
    (p.1, { unit := p.2.unit,
            reference_range := { min := p.2.min, max := p.2.max } }))

/-- A concrete random oracle used to instantiate theorems: the uniform draw
comes back as the lower bound, the Gaussian draw as its mean. -/
def rW : RandomSource :=
  { randomVal := 1/2, gaussVal := fun m _ => m, uniformVal := fun a _ => a }

/-- A concrete environment used to instantiate theorems. -/
def envW : Env :=
  { source := fun _ => rW, time := fun _ => 0, labIdDraw := 123456, procTime := 0 }

/-- A concrete request used to instantiate theorems. -/
def reqW : LabRequest := { patient_id := "p1", test_types := ["hba1c"] }

/-- The result `request_lab_results envW reqW` produces. -/
def resW : LabResult :=
  { test_type := "hba1c", value := generate_lab_value rW "hba1c" 0.3,
    unit := "%", reference_min := 4.0, reference_max := 5.6, timestamp := 0 }

/-- The response `request_lab_results envW reqW` produces. -/
def respW : LabResponse :=
  { patient_id := "p1", results := [resW],
    lab_id := "LAB-" ++ toString (123456 : ℕ), processed_at := 0 }

/-! ### Helper lemmas -/

lemma roundHalfEven_ge_floor (x : ℚ) : ⌊x⌋ ≤ roundHalfEven x := by
  unfold roundHalfEven
  dsimp only
  split
  · exact le_refl _
  · split
    · omega
    · split <;> omega

lemma roundHalfEven_nonneg (x : ℚ) (hx : 0 ≤ x) : 0 ≤ roundHalfEven x := by
  have h : (0 : ℤ) ≤ ⌊x⌋ := Int.floor_nonneg.mpr hx
  exact le_trans h (roundHalfEven_ge_floor x)

lemma roundHalfEven_le_int (x : ℚ) (n : ℤ) (h : x ≤ (n : ℚ)) :
    roundHalfEven x ≤ n := by
  have hfl : ⌊x⌋ ≤ n := by
    have := Int.floor_le_floor h
    simpa using this
  have hflx : ((⌊x⌋ : ℤ) : ℚ) ≤ x := Int.floor_le x
  unfold roundHalfEven
  dsimp only
  split
  · exact hfl
  · have hge : (1 : ℚ)/2 ≤ x - (⌊x⌋ : ℚ) := by linarith [not_lt.mp (by assumption)]
    have hlt : ⌊x⌋ < n := by
      rcases lt_or_eq_of_le hfl with h1 | h1
      · exact h1
      · exfalso
        rw [h1] at hge
        have : (n : ℚ) + 1/2 ≤ x := by linarith
        linarith
    split
    · omega
    · split <;> omega

lemma round2_nonneg (x : ℚ) (hx : 0 ≤ x) : 0 ≤ round2 x := by
  unfold round2
  have h : (0 : ℤ) ≤ roundHalfEven (x * 100) := by
    apply roundHalfEven_nonneg
    positivity
  positivity

lemma round2_le_100 (x : ℚ) (hx : x ≤ 100) : round2 x ≤ 100 := by
  unfold round2
  have h : roundHalfEven (x * 100) ≤ (10000 : ℤ) := by
    apply roundHalfEven_le_int
    push_cast
    linarith
  have h2 : ((roundHalfEven (x * 100) : ℤ) : ℚ) ≤ 10000 := by exact_mod_cast h
  linarith

lemma isRounded2_round2 (x : ℚ) : isRounded2 (round2 x) :=
  ⟨roundHalfEven (x * 100), rfl⟩

lemma buildResults_map_test_type (env : Env) (k : ℕ) (ts : List String) :
    (buildResults env k ts).map LabResult.test_type
      = ts.filter (fun t => (LAB_REFERENCE_RANGES.lookup t).isSome) := by
  induction ts generalizing k with
  | nil => simp [buildResults]
  | cons t rest ih =>
    cases hc : LAB_REFERENCE_RANGES.lookup t with
    | none => simp [buildResults, hc, List.filter_cons, ih]
    | some config => simp [buildResults, hc, List.filter_cons, ih]

lemma mem_buildResults_lookup (env : Env) (k : ℕ) (ts : List String)
    (res : LabResult) (h : res ∈ buildResults env k ts) :
    (LAB_REFERENCE_RANGES.lookup res.test_type).isSome := by
  induction ts generalizing k with
  | nil => simp [buildResults] at h
  | cons t rest ih =>
    cases hc : LAB_REFERENCE_RANGES.lookup t with
    | none =>
      rw [buildResults, hc] at h
      exact ih k h
    | some config =>
      rw [buildResults, hc] at h
      rcases List.mem_cons.mp h with h1 | h1
      · subst h1
        simp [hc]
      · exact ih (k + 1) h1

lemma buildPanel_map_test_type (env : Env) (k : ℕ)
    (entries : List (String × TestProfile)) :
    (buildPanel env k entries).map LabResult.test_type = entries.map Prod.fst := by
  induction entries generalizing k with
  | nil => simp [buildPanel]
  | cons e rest ih =>
    obtain ⟨t, config⟩ := e
    simp [buildPanel, ih]

lemma table_keys_lookup_isSome :
    ∀ t ∈ LAB_REFERENCE_RANGES.map Prod.fst,
      (LAB_REFERENCE_RANGES.lookup t).isSome := by decide

lemma buildResults_eq_nil_iff (env : Env) (k : ℕ) (ts : List String) :
    buildResults env k ts = []
      ↔ ∀ t ∈ ts, LAB_REFERENCE_RANGES.lookup t = none := by
  constructor
  · intro h t ht
    have hmap := buildResults_map_test_type env k ts
    rw [h] at hmap
    have hfil := List.filter_eq_nil_iff.mp hmap.symm t ht
    exact Option.not_isSome_iff_eq_none.mp (by simpa using hfil)
  · intro h
    have hmap := buildResults_map_test_type env k ts
    have hfil : ts.filter (fun t => (LAB_REFERENCE_RANGES.lookup t).isSome) = [] := by
      apply List.filter_eq_nil_iff.mpr
      intro t ht
      simp [h t ht]
    rw [hfil] at hmap
    exact List.map_eq_nil_iff.mp hmap

lemma request_ok_of_nonempty (env : Env) (req : LabRequest)
    (h : buildResults env 0 req.test_types ≠ []) :
    request_lab_results env req =
      Except.ok
        { patient_id := req.patient_id,
          results := buildResults env 0 req.test_types,
          lab_id := "LAB-" ++ toString env.labIdDraw,
          processed_at := env.procTime } := by
  simp [request_lab_results, List.isEmpty_iff, h]

lemma request_error_of_empty (env : Env) (req : LabRequest)
    (h : buildResults env 0 req.test_types = []) :
    request_lab_results env req =
      Except.error { status_code := 400, detail := noValidDetail } := by
  simp [request_lab_results, h]

lemma request_ok_inv (env : Env) (req : LabRequest) (resp : LabResponse)
    (h : request_lab_results env req = Except.ok resp) :
    resp =
      { patient_id := req.patient_id,
        results := buildResults env 0 req.test_types,
        lab_id := "LAB-" ++ toString env.labIdDraw,
        processed_at := env.procTime } := by
  by_cases hres : buildResults env 0 req.test_types = []
  · rw [request_error_of_empty env req hres] at h
    exact absurd h (by simp)
  · rw [request_ok_of_nonempty env req hres] at h
    exact (Except.ok.inj h).symm


/-! ### Claim theorems -/

/-- C1: `request_lab_results` fails with a 400 error whose detail string
enumerates all valid test type names if and only if none of the requested
test types is a key of `LAB_REFERENCE_RANGES`; as soon as at least one
requested test type is a key, it succeeds with a `LabResponse`. -/
theorem request_error_iff (env : Env) (req : LabRequest) :
    (request_lab_results env req
        = Except.error { status_code := 400, detail := noValidDetail }
      ↔ ∀ t ∈ req.test_types, LAB_REFERENCE_RANGES.lookup t = none)
    ∧ ((∃ t ∈ req.test_types, (LAB_REFERENCE_RANGES.lookup t).isSome)
      → ∃ resp, request_lab_results env req = Except.ok resp) := by
  by_cases hres : buildResults env 0 req.test_types = []
  · have herr := request_error_of_empty env req hres
    refine ⟨⟨fun _ => (buildResults_eq_nil_iff env 0 req.test_types).mp hres,
      fun _ => herr⟩, ?_⟩
    rintro ⟨t, ht, hs⟩
    have h0 := (buildResults_eq_nil_iff env 0 req.test_types).mp hres t ht
    rw [h0] at hs
    simp at hs
  · have hok := request_ok_of_nonempty env req hres
    refine ⟨⟨fun h => ?_,
      fun hall =>
        absurd ((buildResults_eq_nil_iff env 0 req.test_types).mpr hall) hres⟩,
      fun _ => ⟨_, hok⟩⟩
    rw [hok] at h
    exact absurd h (by simp)

/-- Witness for C1 at a concrete environment and request. -/
theorem request_error_iff_witness :
    ∃ resp, request_lab_results envW reqW = Except.ok resp :=
  (request_error_iff envW reqW).2 ⟨"hba1c", by decide, by decide⟩

/-- C2: every result of either handler has a test_type that is a key of
`LAB_REFERENCE_RANGES`; unknown requested test types never appear. -/
theorem results_test_type_in_table :
    (∀ env req resp, request_lab_results env req = Except.ok resp →
      ∀ res ∈ resp.results, (LAB_REFERENCE_RANGES.lookup res.test_type).isSome)
    ∧ (∀ env pid, ∀ res ∈ (get_lab_results env pid).results,
      (LAB_REFERENCE_RANGES.lookup res.test_type).isSome) := by
  constructor
  · intro env req resp hok res hres
    have h := request_ok_inv env req resp hok
    rw [h] at hres
    exact mem_buildResults_lookup env 0 req.test_types res hres
  · intro env pid res hres
    have hmem : res.test_type
        ∈ (buildPanel env 0 LAB_REFERENCE_RANGES).map LabResult.test_type :=
      List.mem_map_of_mem LabResult.test_type hres
    rw [buildPanel_map_test_type env 0 LAB_REFERENCE_RANGES] at hmem
    exact table_keys_lookup_isSome res.test_type hmem

/-- Witness for C2 at a concrete environment, request and result. -/
theorem results_test_type_in_table_witness :
    (LAB_REFERENCE_RANGES.lookup resW.test_type).isSome :=
  results_test_type_in_table.1 envW reqW respW rfl resW
    (List.mem_singleton.mpr rfl)

/-- C3: `get_lab_results` always succeeds and returns one result per
reference-table entry, i.e. exactly 7, in table order. -/
theorem get_lab_results_full_panel (env : Env) (pid : String) :
    (get_lab_results env pid).results.length = 7
    ∧ (get_lab_results env pid).results.map LabResult.test_type
        = LAB_REFERENCE_RANGES.map Prod.fst := by
  have hmap := buildPanel_map_test_type env 0 LAB_REFERENCE_RANGES
  constructor
  · have hlen : (buildPanel env 0 LAB_REFERENCE_RANGES).length = 7 := by
      have := congrArg List.length hmap
      simpa using this
    simpa [get_lab_results] using hlen
  · simpa [get_lab_results] using hmap

/-- C4: on every reference-table test type, for any abnormal probability
and any random stream, `generate_lab_value` coincides with the
spec-worded reference definition `generate_lab_value_specModel`. -/
theorem generate_lab_value_refines (r : RandomSource) (t : String) (p : ℚ)
    (h : (LAB_REFERENCE_RANGES.lookup t).isSome) :
    generate_lab_value r t p = generate_lab_value_specModel r t p := by
  cases hc : LAB_REFERENCE_RANGES.lookup t with
  | none => rw [hc] at h; simp at h
  | some c => simp [generate_lab_value, generate_lab_value_specModel, hc]

/-- Witness for C4 at a concrete random stream and test type. -/
theorem generate_lab_value_refines_witness :
    generate_lab_value rW "hba1c" 0.3 = generate_lab_value_specModel rW "hba1c" 0.3 :=
  generate_lab_value_refines rW "hba1c" 0.3 (by decide)

/-- C5: on every reference-table test type, the generated value is
nonnegative and an integer number of hundredths, for every random draw
and abnormal probability. -/
theorem generate_lab_value_nonneg_rounded (r : RandomSource) (t : String)
    (p : ℚ) (h : (LAB_REFERENCE_RANGES.lookup t).isSome) :
    0 ≤ generate_lab_value r t p ∧ isRounded2 (generate_lab_value r t p) := by
  cases hc : LAB_REFERENCE_RANGES.lookup t with
  | none => rw [hc] at h; simp at h
  | some c =>
    simp only [generate_lab_value, hc]
    exact ⟨round2_nonneg _ (le_max_left 0 _), isRounded2_round2 _⟩

/-- Witness for C5 at a concrete random stream and test type. -/
theorem generate_lab_value_nonneg_rounded_witness :
    0 ≤ generate_lab_value rW "hba1c" 0.3
    ∧ isRounded2 (generate_lab_value rW "hba1c" 0.3) :=
  generate_lab_value_nonneg_rounded rW "hba1c" 0.3 (by decide)

/-- C6: on a test type that is not a reference-table key, the generator
does not fail and returns the rounded uniform draw from [0, 100]: the
result is in [0, 100] and an integer number of hundredths. -/
theorem generate_lab_value_unknown_range (r : RandomSource) (t : String)
    (p : ℚ) (h : LAB_REFERENCE_RANGES.lookup t = none)
    (h0 : 0 ≤ r.uniformVal 0 100) (h1 : r.uniformVal 0 100 ≤ 100) :
    0 ≤ generate_lab_value r t p ∧ generate_lab_value r t p ≤ 100
      ∧ isRounded2 (generate_lab_value r t p) := by
  simp only [generate_lab_value, h]
  exact ⟨round2_nonneg _ h0, round2_le_100 _ h1, isRounded2_round2 _⟩

/-- Witness for C6 at a concrete random stream and unknown test type. -/
theorem generate_lab_value_unknown_range_witness :
    0 ≤ generate_lab_value rW "cholesterol" 0.3
    ∧ generate_lab_value rW "cholesterol" 0.3 ≤ 100
      ∧ isRounded2 (generate_lab_value rW "cholesterol" 0.3) :=
  generate_lab_value_unknown_range rW "cholesterol" 0.3 (by decide)
    (le_refl 0) (by norm_num [rW])

/-- C7: with the default test_types list, "cholesterol" is not a table
key, so the response holds exactly the two results "hba1c" and "crp". -/
theorem request_default_types (env : Env) (pid : String) :
    ∃ resp,
      request_lab_results env { patient_id := pid, test_types := defaultTestTypes }
        = Except.ok resp
      ∧ resp.results.map LabResult.test_type = ["hba1c", "crp"] := by
  have hmap := buildResults_map_test_type env 0 defaultTestTypes
  have hfil : defaultTestTypes.filter
      (fun t => (LAB_REFERENCE_RANGES.lookup t).isSome) = ["hba1c", "crp"] := rfl
  rw [hfil] at hmap
  have hne : buildResults env 0 defaultTestTypes ≠ [] := by
    intro h0
    rw [h0] at hmap
    simp at hmap
  exact ⟨_, request_ok_of_nonempty env
    { patient_id := pid, test_types := defaultTestTypes } hne, hmap⟩

/-- C8: requesting exactly ["hba1c"] always succeeds with one single
result carrying test_type "hba1c", unit "%", reference_min 4.0 and
reference_max 5.6. -/
theorem request_hba1c_single (env : Env) (pid : String) :
    ∃ resp,
      request_lab_results env { patient_id := pid, test_types := ["hba1c"] }
        = Except.ok resp
      ∧ resp.results.length = 1
      ∧ ∀ res ∈ resp.results,
          res.test_type = "hba1c" ∧ res.unit = "%"
            ∧ res.reference_min = 4.0 ∧ res.reference_max = 5.6 := by
  have hb : buildResults env 0 ["hba1c"] =
      [{ test_type := "hba1c",
         value := generate_lab_value (env.source 0) "hba1c" 0.3,
         unit := "%", reference_min := 4.0, reference_max := 5.6,
         timestamp := env.time 0 }] := rfl
  have hne : buildResults env 0 ["hba1c"] ≠ [] := by
    rw [hb]
    simp
  refine ⟨{ patient_id := pid, results := buildResults env 0 ["hba1c"],
            lab_id := "LAB-" ++ toString env.labIdDraw,
            processed_at := env.procTime },
    request_ok_of_nonempty env { patient_id := pid, test_types := ["hba1c"] } hne,
    ?_, ?_⟩
  · simp [hb]
  · intro res hres
    simp only [hb, List.mem_singleton] at hres
    subst hres
    exact ⟨rfl, rfl, rfl, rfl⟩

/-- C9: `list_available_tests` is exactly the 7 table entries with their
units and [min, max] reference ranges. -/
theorem list_available_tests_exact :
    list_available_tests =
      [ ("hba1c",
          { unit := "%", reference_range := { min := 4.0, max := 5.6 } }),
        ("cholesterol_total",
          { unit := "mg/dL", reference_range := { min := 0, max := 200 } }),
        ("cholesterol_ldl",
          { unit := "mg/dL", reference_range := { min := 0, max := 100 } }),
        ("cholesterol_hdl",
          { unit := "mg/dL", reference_range := { min := 40, max := 60 } }),
        ("crp",
          { unit := "mg/L", reference_range := { min := 0, max := 3.0 } }),
        ("glucose_fasting",
          { unit := "mg/dL", reference_range := { min := 70, max := 100 } }),
        ("triglycerides",
          { unit := "mg/dL", reference_range := { min := 0, max := 150 } }) ]
    ∧ list_available_tests.length = 7 :=
  ⟨rfl, rfl⟩

/-- C10: every response carries the input patient_id unchanged, the
results in request order (filtered) respectively table order, and a lab_id
of the form LAB- followed by an integer in [100000, 999999]. -/
theorem response_metadata (env : Env) (req : LabRequest) (pid : String)
    (hlo : 100000 ≤ env.labIdDraw) (hhi : env.labIdDraw ≤ 999999) :
    (∀ resp, request_lab_results env req = Except.ok resp →
      resp.patient_id = req.patient_id
      ∧ resp.results.map LabResult.test_type
          = req.test_types.filter (fun t => (LAB_REFERENCE_RANGES.lookup t).isSome)
      ∧ ∃ n : ℕ, 100000 ≤ n ∧ n ≤ 999999 ∧ resp.lab_id = "LAB-" ++ toString n)
    ∧ ((get_lab_results env pid).patient_id = pid
      ∧ (get_lab_results env pid).results.map LabResult.test_type
          = LAB_REFERENCE_RANGES.map Prod.fst
      ∧ ∃ n : ℕ, 100000 ≤ n ∧ n ≤ 999999
          ∧ (get_lab_results env pid).lab_id = "LAB-" ++ toString n) := by
  constructor
  · intro resp hok
    have h := request_ok_inv env req resp hok
    subst h
    exact ⟨rfl, buildResults_map_test_type env 0 req.test_types,
      env.labIdDraw, hlo, hhi, rfl⟩
  · exact ⟨rfl,
      by simpa [get_lab_results] using
        buildPanel_map_test_type env 0 LAB_REFERENCE_RANGES,
      env.labIdDraw, hlo, hhi, rfl⟩

/-- Witness for C10 at a concrete environment, request and response. -/
theorem response_metadata_witness :
    respW.patient_id = reqW.patient_id
    ∧ respW.results.map LabResult.test_type
        = reqW.test_types.filter (fun t => (LAB_REFERENCE_RANGES.lookup t).isSome)
    ∧ ∃ n : ℕ, 100000 ≤ n ∧ n ≤ 999999 ∧ respW.lab_id = "LAB-" ++ toString n :=
  (response_metadata envW reqW "p1" (by decide) (by decide)).1 respW rfl
